import Mathlib

/-!
Verification development for the Quipay payroll system.

The model below is a shallow embedding of the two core contracts:

* `PayrollVault` (the Treasury Ledger, `contracts/payroll_vault/src/lib.rs`):
  per-token treasury balances and liabilities with deposit / withdraw /
  allocate_funds / release_funds / payout / add_liability / remove_liability.
* `PayrollStream` (the Stream Engine, `contracts/payroll_stream/src/lib.rs`):
  vesting streams with create / withdraw / batch_withdraw / cancel / cleanup
  and the linear vesting function `vested_amount`.

Modelling conventions:

* Soroban `Address` values are abstracted as naturals; `require_auth` is an
  opaque host-side precondition and is not modelled (callers are assumed
  authorized, as the spec treats authorization as an external boolean gate).
* `i128` values are `Int` with explicit range checks; `u64` timestamps are
  `Nat`, with the `as i64` casts and `saturating_add` modelled explicitly.
  Arithmetic is overflow-checked (overflow aborts the operation), matching
  the contracts' `checked_*` calls and the build profile described by the
  spec ("overflow is a fatal condition, never silently wrapped").
* A Rust `panic!` and a returned `Err` both abort the enclosing Soroban
  transaction with no state mutation; both are modelled as `Except.error`
  values, with distinct error tags so failure modes can be told apart.
  An operation result of `.ok` carries the complete post-state; `.error`
  means the transaction trapped and the pre-state is kept unchanged.
* Per-token lazily initialized storage cells (`unwrap_or(0)`) are total
  functions with default `0`; the stream and index stores are functions
  `Nat → Option Stream` and `Address → List Nat` (an absent index key and
  an empty list are observationally identical: reads `unwrap_or` an empty
  vector, and `remove_from_index` deletes the key exactly when the
  surviving list is empty).
-/

set_option maxRecDepth 4000

namespace Quipay

/-- Account / contract addresses, abstracted. -/
abbrev Address := Nat

/-- Token (asset) identifiers, abstracted. -/
abbrev Token := Nat

/-- Smallest `i128` value. -/
def I128_MIN : Int := -(2 ^ 127)

/-- Largest `i128` value. -/
def I128_MAX : Int := 2 ^ 127 - 1

/-- Largest `u64` value. -/
def U64_MAX : Nat := 2 ^ 64 - 1

/-- Range check for `i128` results: `some x` iff `x` fits in an `i128`. -/
def i128check (x : Int) : Option Int :=
  if I128_MIN ≤ x ∧ x ≤ I128_MAX then some x else none

/-- Rust `i128::checked_add` (also the overflow-checked `+` of the build). -/
def checkedAdd (a b : Int) : Option Int := i128check (a + b)

/-- Rust `i128::checked_sub` (also the overflow-checked `-` of the build). -/
def checkedSub (a b : Int) : Option Int := i128check (a - b)

/-- Rust `i128::checked_mul`. -/
def checkedMul (a b : Int) : Option Int := i128check (a * b)

/-- Rust `i128::checked_div`: truncating (toward-zero) division, `none` on
division by zero or on the single overflowing case `i128::MIN / -1`. -/
def checkedDiv (a b : Int) : Option Int :=
  if b = 0 then none else i128check (Int.tdiv a b)

/-- Rust `i128::saturating_add`. -/
def saturatingAdd (a b : Int) : Int :=
  if I128_MAX < a + b then I128_MAX
  else if a + b < I128_MIN then I128_MIN
  else a + b

/-- Rust `u64::saturating_add` on `Nat` representatives of `u64` values. -/
def satAdd64 (a b : Nat) : Nat := min (a + b) U64_MAX

/-- Rust `u64 as i64` cast (two's-complement wrap), for `n < 2 ^ 64`. -/
def i64ofU64 (n : Nat) : Int :=
  if n < 2 ^ 63 then (n : Int) else (n : Int) - 2 ^ 64

/-- Failure modes of the Treasury Ledger (vault). Returned `QuipayError`s and
`panic!`s both trap the transaction; they are tagged by their cause. -/
inductive VaultErr
  /-- `InvalidAmount` / `panic!("liability amount must be positive")` etc. -/
  | invalidAmount
  /-- `InsufficientBalance` / `panic!("insufficient funds for liability")`. -/
  | insufficientBalance
  /-- `panic!("cannot remove more liability than exists")` or the
  release-amount-exceeds-liability `InvalidAmount` branch. -/
  | liabilityExceeded
  /-- Overflow-checked arithmetic aborted. -/
  | overflow
deriving DecidableEq

/-- Per-token treasury state of `PayrollVault`: the persistent
`TreasuryBalance(token)` and `TotalLiability(token)` cells, lazily zero. -/
structure VaultState where
  balance : Token → Int
  liability : Token → Int

/-- The lazily-initialized zero state (every per-token cell absent ⇒ `0`). -/
def VaultState.init : VaultState := ⟨fun _ => 0, fun _ => 0⟩

/-- `PayrollVault::deposit` (state part): requires `amount > 0`, adds to the
tracked treasury balance. The external token transfer is not modelled. -/
def VaultState.deposit (v : VaultState) (token : Token) (amount : Int) :
    Except VaultErr VaultState :=
  if amount ≤ 0 then .error .invalidAmount
  else
    match checkedAdd (v.balance token) amount with
    | none => .error .overflow
    | some b => .ok { v with balance := Function.update v.balance token b }

/-- `PayrollVault::check_solvency`: `balance ≥ liability.saturating_add(extra)`,
with negative `extra` always insolvent. -/
def VaultState.check_solvency (v : VaultState) (token : Token) (extra : Int) :
    Bool :=
  if extra < 0 then false
  else saturatingAdd (v.liability token) extra ≤ v.balance token

/-- `PayrollVault::get_available_balance`: `balance - liability`. -/
def VaultState.available (v : VaultState) (token : Token) : Int :=
  v.balance token - v.liability token

/-- `PayrollVault::withdraw` (free-funds withdrawal, state part): requires
`amount > 0` and `amount ≤ balance - liability`; decreases the balance. -/
def VaultState.withdrawFree (v : VaultState) (token : Token) (amount : Int) :
    Except VaultErr VaultState :=
  if amount ≤ 0 then .error .invalidAmount
  else
    match checkedSub (v.balance token) (v.liability token) with
    | none => .error .overflow
    | some avail =>
      if avail < amount then .error .insufficientBalance
      else
        match checkedSub (v.balance token) amount with
        | none => .error .overflow
        | some b => .ok { v with balance := Function.update v.balance token b }

/-- `PayrollVault::allocate_funds` (admin liability allocation): requires
`amount > 0` and `balance ≥ liability + amount`; adds `amount` to the
liability (a single write). -/
def VaultState.allocate_funds (v : VaultState) (token : Token) (amount : Int) :
    Except VaultErr VaultState :=
  if amount ≤ 0 then .error .invalidAmount
  else
    match checkedAdd (v.liability token) amount with
    | none => .error .overflow
    | some sum =>
      if v.balance token < sum then .error .insufficientBalance
      else .ok { v with liability := Function.update v.liability token sum }

/-- `PayrollVault::release_funds` (admin liability release): requires
`amount > 0` and `amount ≤ liability`; subtracts `amount` from the liability. -/
def VaultState.release_funds (v : VaultState) (token : Token) (amount : Int) :
    Except VaultErr VaultState :=
  if amount ≤ 0 then .error .invalidAmount
  else if v.liability token < amount then .error .liabilityExceeded
  else
    match checkedSub (v.liability token) amount with
    | none => .error .overflow
    | some l => .ok { v with liability := Function.update v.liability token l }

/-- `PayrollVault::payout` (state part): requires `amount > 0`,
`amount ≤ balance` and `amount ≤ liability`; debits both the liability and
the balance. The external token transfer to the recipient is not modelled. -/
def VaultState.payout (v : VaultState) (token : Token) (amount : Int) :
    Except VaultErr VaultState :=
  if amount ≤ 0 then .error .invalidAmount
  else if v.balance token < amount then .error .insufficientBalance
  else if v.liability token < amount then .error .invalidAmount
  else
    match checkedSub (v.liability token) amount with
    | none => .error .overflow
    | some l =>
      match checkedSub (v.balance token) amount with
      | none => .error .overflow
      | some b =>
        .ok { v with liability := Function.update v.liability token l,
                     balance := Function.update v.balance token b }

/-- `PayrollVault::add_liability` (authorized-contract path). Mirrors the
source faithfully: after the positivity and solvency gates, the function
writes `TotalLiability(token)` under the name `key`, then re-reads the very
same `TotalLiability(token)` cell under the name `total_key` and writes it a
second time — so one call moves the stored liability by `2 * amount`. -/
def VaultState.add_liability (v : VaultState) (token : Token) (amount : Int) :
    Except VaultErr VaultState :=
  if amount ≤ 0 then .error .invalidAmount
  else if ¬ v.check_solvency token amount then .error .insufficientBalance
  else
    match checkedAdd (v.liability token) amount with
    | none => .error .overflow
    | some l1 =>
      let v1 : VaultState :=
        { v with liability := Function.update v.liability token l1 }
      match checkedAdd (v1.liability token) amount with
      | none => .error .overflow
      | some l2 =>
        .ok { v1 with liability := Function.update v1.liability token l2 }

/-- `PayrollVault::remove_liability` (authorized-contract path). Like
`add_liability`, the source writes the single `TotalLiability(token)` cell
twice, so one call subtracts `2 * amount` (the guard only checks
`amount ≤ liability`, so the stored liability can go negative). -/
def VaultState.remove_liability (v : VaultState) (token : Token) (amount : Int) :
    Except VaultErr VaultState :=
  if amount ≤ 0 then .error .invalidAmount
  else if v.liability token < amount then .error .liabilityExceeded
  else
    match checkedSub (v.liability token) amount with
    | none => .error .overflow
    | some l1 =>
      let v1 : VaultState :=
        { v with liability := Function.update v.liability token l1 }
      match checkedSub (v1.liability token) amount with
      | none => .error .overflow
      | some l2 =>
        .ok { v1 with liability := Function.update v1.liability token l2 }

/-- One Treasury Ledger operation (with its token and amount arguments). -/
inductive VaultOp
  | deposit (token : Token) (amount : Int)
  | withdrawFree (token : Token) (amount : Int)
  | allocate (token : Token) (amount : Int)
  | release (token : Token) (amount : Int)
  | payoutTo (token : Token) (amount : Int)
  | addLiab (token : Token) (amount : Int)
  | removeLiab (token : Token) (amount : Int)

/-- Execute one vault operation. -/
def stepVault (v : VaultState) : VaultOp → Except VaultErr VaultState
  | .deposit t a => v.deposit t a
  | .withdrawFree t a => v.withdrawFree t a
  | .allocate t a => v.allocate_funds t a
  | .release t a => v.release_funds t a
  | .payoutTo t a => v.payout t a
  | .addLiab t a => v.add_liability t a
  | .removeLiab t a => v.remove_liability t a

/-- Execute a sequence of vault operations; the sequence completes (returns
`.ok`) only when every operation completes without trapping. -/
def runVault (ops : List VaultOp) (v : VaultState) : Except VaultErr VaultState :=
  List.foldlM stepVault v ops

/-- C1: the claimed solvency invariant — from the zero state, after every
non-trapping sequence of ledger operations, `balance ≥ liability ≥ 0` holds
for every token. The code violates it: `add_liability` checks solvency for
`amount` but then increases the stored liability by `2 * amount` (it writes
the one `TotalLiability(token)` cell twice), and `remove_liability` likewise
subtracts `2 * amount`, driving the liability below zero. Both runs below
complete without trapping: after `deposit 10; add_liability 6` the stored
liability is `12 > 10 = balance`, and after
`deposit 10; add_liability 3; remove_liability 5` it is `-4 < 0`. The
repository's own test `test_liability_tracking` expects `add_liability` to
move the liability by exactly `amount`, so the code contradicts its tests. -/
theorem c1_solvency_invariant_violated :
    (∃ s, runVault [.deposit 0 10, .addLiab 0 6] VaultState.init = .ok s ∧
      s.balance 0 < s.liability 0) ∧
    (∃ s, runVault [.deposit 0 10, .addLiab 0 3, .removeLiab 0 5]
        VaultState.init = .ok s ∧ s.liability 0 < 0) :=
  ⟨⟨_, rfl, by decide⟩, ⟨_, rfl, by decide⟩⟩

/-- A concrete funded treasury: balance 10000, liability 0 for token 0. -/
def fundedVault : VaultState :=
  { balance := Function.update (fun _ => 0) 0 10000, liability := fun _ => 0 }

/-- C2: the claim says the liability-allocation operations increase the
stored liability by exactly `amount`. That is true of the admin path
`allocate_funds` but false of `add_liability`, the admission gate used by
stream creation: with balance 10000 and liability 0, `add_liability 500`
leaves a stored liability of `1000`, not `500` (the double write described
in `VaultState.add_liability`), while `allocate_funds 500` leaves `500`.
The balance is unchanged by both, and the solvency gate itself checks
`balance ≥ liability + amount` as claimed. -/
theorem c2_add_liability_doubles :
    (∃ s, fundedVault.add_liability 0 500 = .ok s ∧
      s.liability 0 = 1000 ∧ s.balance 0 = fundedVault.balance 0) ∧
    (∃ s, fundedVault.allocate_funds 0 500 = .ok s ∧
      s.liability 0 = 500 ∧ s.balance 0 = fundedVault.balance 0) :=
  ⟨⟨_, rfl, by decide, rfl⟩, ⟨_, rfl, by decide, rfl⟩⟩

/-- Stream lifecycle status (`StreamStatus` in the source). -/
inductive StreamStatus
  | Active
  | Canceled
  | Completed
deriving DecidableEq

/-- A vesting stream record (`Stream` in the source). Timestamps are `u64`
seconds, amounts are `i128`. -/
structure Stream where
  employer : Address
  worker : Address
  token : Token
  rate : Int
  cliff_ts : Nat
  start_ts : Nat
  end_ts : Nat
  total_amount : Int
  withdrawn_amount : Int
  last_withdrawal_ts : Nat
  status : StreamStatus
  created_at : Nat
  closed_at : Nat
deriving DecidableEq

/-- `PayrollStream::is_closed`: Canceled or Completed. -/
def isClosed (s : Stream) : Bool :=
  s.status == StreamStatus.Canceled || s.status == StreamStatus.Completed

/-- `PayrollStream::vested_amount`, the single accrual function. The cliff is
checked first, then the start/end bounds; in between the source computes
`total_amount.checked_mul(i128::from(elapsed as i64))
  .checked_div(i128::from(duration as i64))`
with `expect` on both — modelled as `none` (a trap) on overflow. Note that
neither `status` nor `closed_at` is consulted. -/
def vested_amount (s : Stream) (now : Nat) : Option Int :=
  if now < s.cliff_ts then some 0
  else if now ≤ s.start_ts then some 0
  else if s.end_ts ≤ now then some s.total_amount
  else
    match checkedMul s.total_amount (i64ofU64 (now - s.start_ts)) with
    | none => none
    | some p => checkedDiv p (i64ofU64 (s.end_ts - s.start_ts))

/-- Per-item outcome of `batch_withdraw` (`WithdrawResult` in the source). -/
structure WithdrawResult where
  stream_id : Nat
  amount : Int
  success : Bool
deriving DecidableEq

/-- Failure modes of the Stream Engine (returned errors and `panic!`s). -/
inductive StreamErr
  /-- `panic!("protocol paused")`. -/
  | protocolPaused
  /-- `panic!("rate must be positive")`. -/
  | rateNotPositive
  /-- `panic!("invalid time range")`. -/
  | invalidTimeRange
  /-- `panic!("cliff_ts must not exceed end_ts")`. -/
  | cliffAfterEnd
  /-- `panic!("start_time must be >= current time")`. -/
  | startInPast
  /-- an `expect` on checked i128 arithmetic fired. -/
  | amountOverflow
  /-- a cross-contract vault call trapped. -/
  | vaultCall (e : VaultErr)
  /-- `expect("stream id overflow")`. -/
  | streamIdOverflow
  /-- `expect("stream not found")` / `QuipayError::StreamNotFound`. -/
  | streamNotFound
  /-- `panic!("not worker")`. -/
  | notWorker
  /-- `panic!("stream closed")`. -/
  | streamClosed
  /-- `panic!("not employer")`. -/
  | notEmployer
  /-- the `require!(is_closed)` gate of cleanup failed. -/
  | streamNotClosed
  /-- `panic!("retention period not met")`. -/
  | retentionNotMet
deriving DecidableEq

/-- Combined state: the Stream Engine's stores plus the vault it calls.
`streams` is the persistent `Stream(id)` map, `employerIx` / `workerIx` the
two secondary indexes, `nextId` the `NextStreamId` counter, `retention` the
`RetentionSecs` setting and `paused` the pause flag. -/
structure SysState where
  vault : VaultState
  streams : Nat → Option Stream
  employerIx : Address → List Nat
  workerIx : Address → List Nat
  nextId : Nat
  retention : Nat
  paused : Bool

/-- `PayrollStream::create_stream`. Validations in source order; the vault's
`add_liability` is invoked cross-contract before anything is persisted, so a
vault trap aborts creation with no stream stored and no index appended. -/
def create_stream (sys : SysState) (employer worker : Address) (token : Token)
    (rate : Int) (cliff_ts start_ts end_ts now : Nat) :
    Except StreamErr (SysState × Nat) :=
  if sys.paused then .error .protocolPaused
  else if rate ≤ 0 then .error .rateNotPositive
  else if end_ts ≤ start_ts then .error .invalidTimeRange
  else
    let effCliff := if cliff_ts = 0 then start_ts else cliff_ts
    if end_ts < effCliff then .error .cliffAfterEnd
    else if start_ts < now then .error .startInPast
    else
      match checkedMul rate (i64ofU64 (end_ts - start_ts)) with
      | none => .error .amountOverflow
      | some total =>
        match sys.vault.add_liability token total with
        | .error e => .error (.vaultCall e)
        | .ok vault' =>
          if U64_MAX ≤ sys.nextId then .error .streamIdOverflow
          else
            let id := sys.nextId
            let st : Stream :=
              { employer := employer, worker := worker, token := token,
                rate := rate, cliff_ts := effCliff, start_ts := start_ts,
                end_ts := end_ts, total_amount := total, withdrawn_amount := 0,
                last_withdrawal_ts := 0, status := .Active, created_at := now,
                closed_at := 0 }
            .ok ({ sys with
              vault := vault',
              nextId := sys.nextId + 1,
              streams := Function.update sys.streams id (some st),
              employerIx := Function.update sys.employerIx employer
                (sys.employerIx employer ++ [id]),
              workerIx := Function.update sys.workerIx worker
                (sys.workerIx worker ++ [id]) }, id)

/-- `PayrollStream::withdraw`. Computes `available = vested - withdrawn`
(`checked_sub(..).unwrap_or(0)`), returns 0 with no mutation when
`available ≤ 0`, otherwise advances `withdrawn_amount` and
`last_withdrawal_ts` and transitions to Completed when fully withdrawn.
The vault is never touched. -/
def withdraw (sys : SysState) (stream_id : Nat) (worker : Address) (now : Nat) :
    Except StreamErr (SysState × Int) :=
  if sys.paused then .error .protocolPaused
  else
    match sys.streams stream_id with
    | none => .error .streamNotFound
    | some stream =>
      if stream.worker ≠ worker then .error .notWorker
      else if isClosed stream then .error .streamClosed
      else
        match vested_amount stream now with
        | none => .error .amountOverflow
        | some vested =>
          let available := (checkedSub vested stream.withdrawn_amount).getD 0
          if available ≤ 0 then .ok (sys, 0)
          else
            match checkedAdd stream.withdrawn_amount available with
            | none => .error .amountOverflow
            | some wd =>
              let s1 := { stream with withdrawn_amount := wd,
                                      last_withdrawal_ts := now }
              let s2 := if s1.total_amount ≤ s1.withdrawn_amount
                then { s1 with status := .Completed, closed_at := now }
                else s1
              .ok ({ sys with
                streams := Function.update sys.streams stream_id (some s2) },
                available)

/-- One iteration of the `batch_withdraw` loop: the per-item handling of a
stream id against the stream store. The listed failure cases (missing id,
foreign payee, closed stream) yield an unsuccessful `WithdrawResult` with no
mutation; only a trap in the arithmetic (`expect`) aborts, which is an
`.error` aborting the whole batch. -/
def batch_item (m : Nat → Option Stream) (stream_id : Nat) (caller : Address)
    (now : Nat) : Except StreamErr ((Nat → Option Stream) × WithdrawResult) :=
  match m stream_id with
  | none => .ok (m, ⟨stream_id, 0, false⟩)
  | some stream =>
    if stream.worker ≠ caller then .ok (m, ⟨stream_id, 0, false⟩)
    else if isClosed stream then .ok (m, ⟨stream_id, 0, false⟩)
    else
      match vested_amount stream now with
      | none => .error .amountOverflow
      | some vested =>
        let available := (checkedSub vested stream.withdrawn_amount).getD 0
        if available ≤ 0 then .ok (m, ⟨stream_id, 0, true⟩)
        else
          match checkedAdd stream.withdrawn_amount available with
          | none => .error .amountOverflow
          | some wd =>
            let s1 := { stream with withdrawn_amount := wd,
                                    last_withdrawal_ts := now }
            let s2 := if s1.total_amount ≤ s1.withdrawn_amount
              then { s1 with status := .Completed, closed_at := now }
              else s1
            .ok (Function.update m stream_id (some s2),
              ⟨stream_id, available, true⟩)

/-- The `batch_withdraw` loop over the id list, threading the stream store
and accumulating per-item results in order. -/
def batch_go (m : Nat → Option Stream) (ids : List Nat) (caller : Address)
    (now : Nat) : Except StreamErr ((Nat → Option Stream) × List WithdrawResult) :=
  match ids with
  | [] => .ok (m, [])
  | id :: rest =>
    match batch_item m id caller now with
    | .error e => .error e
    | .ok (m', r) =>
      match batch_go m' rest caller now with
      | .error e => .error e
      | .ok (m'', rs) => .ok (m'', r :: rs)

/-- `PayrollStream::batch_withdraw`: pause gate, then the per-item loop. -/
def batch_withdraw (sys : SysState) (ids : List Nat) (caller : Address)
    (now : Nat) : Except StreamErr (SysState × List WithdrawResult) :=
  if sys.paused then .error .protocolPaused
  else
    match batch_go sys.streams ids caller now with
    | .error e => .error e
    | .ok (m', rs) => .ok ({ sys with streams := m' }, rs)

/-- `PayrollStream::cancel_stream`: employer-only; an already-closed stream
is returned unchanged (idempotent no-op), otherwise the stream transitions
to Canceled with `closed_at = now`. The vault is never touched. -/
def cancel_stream (sys : SysState) (stream_id : Nat) (employer : Address)
    (now : Nat) : Except StreamErr SysState :=
  if sys.paused then .error .protocolPaused
  else
    match sys.streams stream_id with
    | none => .error .streamNotFound
    | some stream =>
      if stream.employer ≠ employer then .error .notEmployer
      else if isClosed stream then .ok sys
      else
        let canceled : Stream := { stream with status := .Canceled, closed_at := now }
        .ok { sys with
          streams := Function.update sys.streams stream_id (some canceled) }

/-- `PayrollStream::remove_from_index`: rebuilds the owner's id list keeping
every entry other than `stream_id` in order (and drops the key when the
survivor list is empty, which coincides with storing the empty list here). -/
def remove_from_index (ix : Address → List Nat) (owner : Address)
    (stream_id : Nat) : Address → List Nat :=
  Function.update ix owner ((ix owner).filter (fun i => i ≠ stream_id))

/-- `PayrollStream::cleanup_stream`: requires the stream to exist, to be
closed, and `now ≥ closed_at.saturating_add(retention)`; then removes the id
from both indexes and deletes the record. There is no pause gate. -/
def cleanup_stream (sys : SysState) (stream_id : Nat) (now : Nat) :
    Except StreamErr SysState :=
  match sys.streams stream_id with
  | none => .error .streamNotFound
  | some stream =>
    if ¬ isClosed stream then .error .streamNotClosed
    else if now < satAdd64 stream.closed_at sys.retention then
      .error .retentionNotMet
    else .ok { sys with
      streams := Function.update sys.streams stream_id none,
      employerIx := remove_from_index sys.employerIx stream.employer stream_id,
      workerIx := remove_from_index sys.workerIx stream.worker stream_id }

/-- `PayrollStream::get_stream`. -/
def get_stream (sys : SysState) (stream_id : Nat) : Option Stream :=
  sys.streams stream_id

/-- A live mid-vesting stream owned by employer 0 / worker 1: rate 10 over
`[0, 100]`, no cliff, total 1000, nothing withdrawn yet. -/
def liveStream : Stream :=
  { employer := 0, worker := 1, token := 0, rate := 10, cliff_ts := 0,
    start_ts := 0, end_ts := 100, total_amount := 1000, withdrawn_amount := 0,
    last_withdrawal_ts := 0, status := .Active, created_at := 0, closed_at := 0 }

/-- A combined state holding `liveStream` as stream 1, with the vault funded
(balance 10000) and carrying the stream's full commitment as liability. -/
def liveSys : SysState :=
  { vault := { balance := Function.update (fun _ => 0) 0 10000,
               liability := Function.update (fun _ => 0) 0 1000 },
    streams := Function.update (fun _ => none) 1 (some liveStream),
    employerIx := Function.update (fun _ => []) 0 [1],
    workerIx := Function.update (fun _ => []) 1 [1],
    nextId := 2, retention := 2592000, paused := false }

/-- C3: the claim says a positive-available withdrawal invokes the Treasury
Ledger's `payout`, debiting both the tracked balance and the liability and
transferring tokens to the payee. The code performs only the stream-local
part: at `now = 60` on `liveStream` it pays 600, advances
`withdrawn_amount` and `last_withdrawal_ts` — but the vault state after the
call is identical to the vault state before it (liability still 1000,
balance still 10000, no transfer), because `withdraw` contains no vault
call at all. The repository's own integration tests
(`test_integration_liabilities_updated_on_create_and_withdraw`,
`test_integration_token_transfer_on_withdrawal`) assert the liability debit
and the token transfer, so the code contradicts its tests. -/
theorem c3_withdraw_never_calls_payout :
    ∃ sys', withdraw liveSys 1 1 60 = .ok (sys', 600) ∧
      sys'.vault = liveSys.vault ∧
      sys'.streams 1 = some { liveStream with withdrawn_amount := 600,
                                              last_withdrawal_ts := 60 } :=
  ⟨_, rfl, rfl, by decide⟩

/-- A partially-withdrawn live stream: 600 of the 1000 total already taken,
so the outstanding commitment is 400. -/
def partStream : Stream :=
  { liveStream with withdrawn_amount := 600, last_withdrawal_ts := 60 }

/-- `partStream` stored as stream 1, with the vault still carrying the
matching outstanding liability of 400. -/
def partSys : SysState :=
  { liveSys with
    vault := { balance := Function.update (fun _ => 0) 0 10000,
               liability := Function.update (fun _ => 0) 0 400 },
    streams := Function.update (fun _ => none) 1 (some partStream) }

/-- C4: the claim says cancellation releases the remaining commitment
`total_amount - withdrawn_amount` (here 400) back to the Treasury Ledger via
`release_liability`. The code only flips the stream to Canceled with
`closed_at = now`: the vault after `cancel_stream` is identical to the vault
before (liability still 400 — never released), because `cancel_stream`
contains no vault call. The claim's idempotency half does hold: a second
cancel returns the same state unchanged, with no (second) release. The
repository's own integration test `test_integration_remove_liability_on_cancel`
asserts the liability drops to 0 on cancel, so the code contradicts its
tests; the spec itself (§9) flags the no-release variant as a latent bug. -/
theorem c4_cancel_never_releases_liability :
    ∃ sys', cancel_stream partSys 1 0 70 = .ok sys' ∧
      sys'.vault = partSys.vault ∧
      sys'.streams 1 = some { partStream with status := .Canceled,
                                              closed_at := 70 } ∧
      cancel_stream sys' 1 0 99 = .ok sys' :=
  ⟨_, rfl, rfl, by decide, rfl⟩

/-- On an insolvent allocation request (`balance < liability + T`),
`add_liability` always traps; the trap is the insufficient-funds panic
whenever `liability + T` itself fits in an `i128` (otherwise the saturating
solvency check can pass against a balance of `i128::MAX`, and the
subsequent overflow-checked liability write aborts instead). -/
theorem add_liability_insolvent (v : VaultState) (tok : Token) (T : Int)
    (hT0 : 0 < T) (hbal : v.balance tok ≤ I128_MAX)
    (hliab : I128_MIN ≤ v.liability tok)
    (hins : v.balance tok < v.liability tok + T) :
    ∃ e, v.add_liability tok T = .error e ∧
      (v.liability tok + T ≤ I128_MAX → e = .insufficientBalance) := by
  have hTpos : ¬ T ≤ 0 := not_le.mpr hT0
  have hTneg : ¬ T < 0 := not_lt.mpr hT0.le
  by_cases hA : v.liability tok + T ≤ I128_MAX
  · have hsat : saturatingAdd (v.liability tok) T = v.liability tok + T := by
      unfold saturatingAdd
      rw [if_neg (not_lt.mpr hA), if_neg]
      have : I128_MIN < 0 := by norm_num [I128_MIN]
      omega
    have hchk : v.check_solvency tok T = false := by
      unfold VaultState.check_solvency
      rw [if_neg hTneg, hsat]
      simp only [decide_eq_false_iff_not, not_le]
      exact hins
    refine ⟨.insufficientBalance, ?_, fun _ => rfl⟩
    unfold VaultState.add_liability
    rw [if_neg hTpos, if_pos (by simp [hchk])]
  · have hA' : I128_MAX < v.liability tok + T := not_le.mp hA
    by_cases hB : v.balance tok < I128_MAX
    · have hsat : saturatingAdd (v.liability tok) T = I128_MAX := by
        unfold saturatingAdd
        rw [if_pos hA']
      have hchk : v.check_solvency tok T = false := by
        unfold VaultState.check_solvency
        rw [if_neg hTneg, hsat]
        simp only [decide_eq_false_iff_not, not_le]
        exact hB
      refine ⟨.insufficientBalance, ?_, fun _ => rfl⟩
      unfold VaultState.add_liability
      rw [if_neg hTpos, if_pos (by simp [hchk])]
    · have hbeq : v.balance tok = I128_MAX := le_antisymm hbal (not_lt.mp hB)
      have hsat : saturatingAdd (v.liability tok) T = I128_MAX := by
        unfold saturatingAdd
        rw [if_pos hA']
      have hchk : v.check_solvency tok T = true := by
        unfold VaultState.check_solvency
        rw [if_neg hTneg, hsat, hbeq]
        simp
      have hadd : checkedAdd (v.liability tok) T = none := by
        unfold checkedAdd i128check
        rw [if_neg]
        intro hcon
        exact hA hcon.2
      refine ⟨.overflow, ?_, fun h => absurd h hA⟩
      unfold VaultState.add_liability
      rw [if_neg hTpos, if_neg (by simp [hchk]), hadd]

/-- C5 (amended): with valid creation parameters against an insolvent
treasury — computed `total_amount = rate × (end_ts − start_ts)` exceeding
`balance − liability` — `create_stream` always fails, so no stream record is
persisted and no index entry is appended (an `.error` result carries no
post-state: the transaction traps before any write). The failure is the
insufficient-funds trap except in the extreme case where
`liability + total_amount` overflows `i128` against a balance of exactly
`i128::MAX`, where the allocation aborts by overflow instead (see the
counterexample `c5_counterexample`). -/
theorem c5_insolvent_creation_fails (sys : SysState) (employer worker : Address)
    (tok : Token) (rate : Int) (cliff_ts start_ts end_ts now : Nat)
    (hp : sys.paused = false)
    (hr : 0 < rate)
    (ht : start_ts < end_ts)
    (hc : (if cliff_ts = 0 then start_ts else cliff_ts) ≤ end_ts)
    (hn : now ≤ start_ts)
    (hdur : end_ts - start_ts < 2 ^ 63)
    (hT : rate * ((end_ts - start_ts : Nat) : Int) ≤ I128_MAX)
    (hbal : sys.vault.balance tok ≤ I128_MAX)
    (hliab : I128_MIN ≤ sys.vault.liability tok)
    (hins : sys.vault.available tok < rate * ((end_ts - start_ts : Nat) : Int)) :
    ∃ e, create_stream sys employer worker tok rate cliff_ts start_ts end_ts now
        = .error e ∧
      (sys.vault.liability tok + rate * ((end_ts - start_ts : Nat) : Int)
          ≤ I128_MAX → e = .vaultCall .insufficientBalance) := by
  have hd1 : 1 ≤ end_ts - start_ts := by omega
  have hT0 : 0 < rate * ((end_ts - start_ts : Nat) : Int) := by
    apply mul_pos hr
    exact_mod_cast hd1
  have hiv : i64ofU64 (end_ts - start_ts) = ((end_ts - start_ts : Nat) : Int) := by
    unfold i64ofU64
    rw [if_pos hdur]
  have hmul : checkedMul rate (i64ofU64 (end_ts - start_ts))
      = some (rate * ((end_ts - start_ts : Nat) : Int)) := by
    unfold checkedMul i128check
    rw [hiv, if_pos]
    refine ⟨?_, hT⟩
    have : I128_MIN < 0 := by norm_num [I128_MIN]
    omega
  have hins' : sys.vault.balance tok
      < sys.vault.liability tok + rate * ((end_ts - start_ts : Nat) : Int) := by
    unfold VaultState.available at hins
    omega
  obtain ⟨e, he, hsec⟩ :=
    add_liability_insolvent sys.vault tok _ hT0 hbal hliab hins'
  refine ⟨.vaultCall e, ?_, fun h => by rw [hsec h]⟩
  unfold create_stream
  rw [hp]
  simp only [Bool.false_eq_true, if_false]
  rw [if_neg (not_le.mpr hr), if_neg (not_le.mpr ht), if_neg (not_lt.mpr hc),
    if_neg (not_lt.mpr hn), hmul]
  simp only [he]

/-- A treasury at the `i128` boundary: balance `i128::MAX`, liability 1. -/
def maxVaultSys : SysState :=
  { vault := { balance := Function.update (fun _ => 0) 0 I128_MAX,
               liability := Function.update (fun _ => 0) 0 1 },
    streams := fun _ => none,
    employerIx := fun _ => [],
    workerIx := fun _ => [],
    nextId := 1, retention := 2592000, paused := false }

/-- C5 (counterexample to the claim as stated): a creation request whose
total `i128::MAX` exceeds the available funds `i128::MAX − 1` does fail and
persists nothing — but the failure is the overflow abort of the liability
write, not `InsufficientBalance`: the saturating solvency check saturates
`1 + i128::MAX` to `i128::MAX`, which the boundary balance passes. -/
theorem c5_counterexample :
    maxVaultSys.vault.available 0 < I128_MAX * ((1 : Nat) : Int) ∧
    create_stream maxVaultSys 0 1 0 I128_MAX 0 0 1 0
      = .error (.vaultCall .overflow) ∧
    StreamErr.vaultCall .overflow ≠ StreamErr.vaultCall .insufficientBalance :=
  ⟨by decide, rfl, by decide⟩

/-- Spec's scenario for C5: treasury balance 10000 and an otherwise-valid
creation with total 15000 (rate 150 over `[0, 100]`) fails with the
insufficient-funds trap, by `c5_insolvent_creation_fails`. -/
theorem c5_witness :
    ∃ e, create_stream
        { vault := { balance := Function.update (fun _ => 0) 0 10000,
                     liability := fun _ => 0 },
          streams := fun _ => none, employerIx := fun _ => [],
          workerIx := fun _ => [], nextId := 1, retention := 2592000,
          paused := false } 0 1 0 150 0 0 100 0 = .error e ∧
      ((0 : Int) + 150 * ((100 - 0 : Nat) : Int) ≤ I128_MAX →
        e = .vaultCall .insufficientBalance) :=
  c5_insolvent_creation_fails _ 0 1 0 150 0 0 100 0 rfl (by decide) (by decide)
    (by decide) (by decide) (by decide) (by decide) (by decide) (by decide)
    (by decide)

/-- Inversion for a successful `i128` range check. -/
theorem i128check_some {x y : Int} (h : i128check x = some y) :
    y = x ∧ I128_MIN ≤ x ∧ x ≤ I128_MAX := by
  unfold i128check at h
  split_ifs at h with hb
  exact ⟨(Option.some_inj.mp h).symm, hb⟩

/-- The `i128` range check succeeds inside the range. -/
theorem i128check_of_bounds {x : Int} (h1 : I128_MIN ≤ x) (h2 : x ≤ I128_MAX) :
    i128check x = some x :=
  if_pos ⟨h1, h2⟩

/-- In the strict interior of the vesting window the `u64 → i64` casts are
the identity (given the creation-established bound `duration < 2 ^ 63`),
so `vested_amount` is the checked product-then-quotient. -/
theorem vested_middle (s : Stream) (t : Nat)
    (hd : s.end_ts - s.start_ts < 2 ^ 63)
    (h1 : ¬ t < s.cliff_ts) (h2 : s.start_ts < t) (h3 : t < s.end_ts) :
    vested_amount s t =
      match checkedMul s.total_amount ((t - s.start_ts : Nat) : Int) with
      | none => none
      | some p => checkedDiv p ((s.end_ts - s.start_ts : Nat) : Int) := by
  unfold vested_amount
  rw [if_neg h1, if_neg (not_le.mpr h2), if_neg (not_le.mpr h3)]
  have he : i64ofU64 (t - s.start_ts) = ((t - s.start_ts : Nat) : Int) := by
    unfold i64ofU64
    rw [if_pos (by omega)]
  have hdv : i64ofU64 (s.end_ts - s.start_ts)
      = ((s.end_ts - s.start_ts : Nat) : Int) := by
    unfold i64ofU64
    rw [if_pos hd]
  rw [he, hdv]

/-- Characterization of a non-trapping interior vesting value: it is the
Euclidean (= truncating, everything being non-negative) quotient
`total_amount * elapsed / duration`, lies between 0 and `total_amount`. -/
theorem vested_middle_some (s : Stream) (t : Nat) (v : Int)
    (h0 : 0 ≤ s.total_amount) (hd : s.end_ts - s.start_ts < 2 ^ 63)
    (h1 : ¬ t < s.cliff_ts) (h2 : s.start_ts < t) (h3 : t < s.end_ts)
    (h : vested_amount s t = some v) :
    v = s.total_amount * ((t - s.start_ts : Nat) : Int)
        / ((s.end_ts - s.start_ts : Nat) : Int) ∧
    0 ≤ v ∧ v ≤ s.total_amount := by
  rw [vested_middle s t hd h1 h2 h3] at h
  cases hm : checkedMul s.total_amount ((t - s.start_ts : Nat) : Int) with
  | none => rw [hm] at h; exact Option.noConfusion h
  | some p =>
    rw [hm] at h
    have h' : checkedDiv p ((s.end_ts - s.start_ts : Nat) : Int) = some v := h
    unfold checkedMul at hm
    obtain ⟨hp, _, _⟩ := i128check_some hm
    subst hp
    have hdpos : (0 : Int) < ((s.end_ts - s.start_ts : Nat) : Int) := by
      exact_mod_cast Nat.sub_pos_of_lt (lt_trans h2 h3)
    have hne : ¬ (((s.end_ts - s.start_ts : Nat) : Int) = 0) := by omega
    unfold checkedDiv at h'
    rw [if_neg hne] at h'
    obtain ⟨hv, _, _⟩ := i128check_some h'
    have hanneg : 0 ≤ s.total_amount * ((t - s.start_ts : Nat) : Int) :=
      mul_nonneg h0 (by positivity)
    have htdiv : Int.tdiv (s.total_amount * ((t - s.start_ts : Nat) : Int))
        ((s.end_ts - s.start_ts : Nat) : Int)
        = s.total_amount * ((t - s.start_ts : Nat) : Int)
          / ((s.end_ts - s.start_ts : Nat) : Int) :=
      Int.tdiv_eq_ediv hanneg hdpos.le
    have hele : ((t - s.start_ts : Nat) : Int) ≤ ((s.end_ts - s.start_ts : Nat) : Int) := by
      exact_mod_cast Nat.sub_le_sub_right h3.le s.start_ts
    refine ⟨by rw [hv, htdiv], ?_, ?_⟩
    · rw [hv, htdiv]
      exact Int.ediv_nonneg hanneg hdpos.le
    · rw [hv, htdiv]
      calc s.total_amount * ((t - s.start_ts : Nat) : Int)
            / ((s.end_ts - s.start_ts : Nat) : Int)
          ≤ s.total_amount * ((s.end_ts - s.start_ts : Nat) : Int)
            / ((s.end_ts - s.start_ts : Nat) : Int) :=
            Int.ediv_le_ediv hdpos (mul_le_mul_of_nonneg_left hele h0)
        _ = s.total_amount := Int.mul_ediv_cancel _ (by omega)

/-- Branch lemma: before the cliff nothing has vested. -/
theorem vested_before_cliff (s : Stream) (t : Nat) (h : t < s.cliff_ts) :
    vested_amount s t = some 0 := by
  unfold vested_amount
  rw [if_pos h]

/-- Branch lemma: at or before the start nothing has vested. -/
theorem vested_before_start (s : Stream) (t : Nat) (h1 : ¬ t < s.cliff_ts)
    (h2 : t ≤ s.start_ts) : vested_amount s t = some 0 := by
  unfold vested_amount
  rw [if_neg h1, if_pos h2]

/-- Branch lemma: at or after the end the full total has vested. -/
theorem vested_after_end (s : Stream) (t : Nat) (h1 : ¬ t < s.cliff_ts)
    (h2 : ¬ t ≤ s.start_ts) (h3 : s.end_ts ≤ t) :
    vested_amount s t = some s.total_amount := by
  unfold vested_amount
  rw [if_neg h1, if_neg h2, if_pos h3]

/-- Every non-trapping vesting value is between 0 and `total_amount`. -/
theorem vested_bounds (s : Stream) (t : Nat) (v : Int)
    (h0 : 0 ≤ s.total_amount) (hd : s.end_ts - s.start_ts < 2 ^ 63)
    (h : vested_amount s t = some v) : 0 ≤ v ∧ v ≤ s.total_amount := by
  by_cases h1 : t < s.cliff_ts
  · rw [vested_before_cliff s t h1] at h
    cases h
    exact ⟨le_refl 0, h0⟩
  by_cases h2 : t ≤ s.start_ts
  · rw [vested_before_start s t h1 h2] at h
    cases h
    exact ⟨le_refl 0, h0⟩
  by_cases h3 : s.end_ts ≤ t
  · rw [vested_after_end s t h1 h2 h3] at h
    cases h
    exact ⟨h0, le_refl _⟩
  · obtain ⟨_, hnn, hle⟩ :=
      vested_middle_some s t v h0 hd h1 (not_le.mp h2) (not_le.mp h3) h
    exact ⟨hnn, hle⟩

/-- C8: vesting monotonicity and cap. For any fixed stream record satisfying
the creation-established well-formedness facts `total_amount ≥ 0` and
`end_ts - start_ts < 2 ^ 63` (creation rejects `rate ≤ 0` and traps inside
the vault on the non-positive total produced by a wrapped `duration as i64`
cast, so no persisted stream violates them), every pair of non-trapping
vesting values at times `t1 ≤ t2` is ordered, and every non-trapping
vesting value is at most `total_amount`. -/
theorem c8_vesting_monotone_capped (s : Stream)
    (h0 : 0 ≤ s.total_amount) (hd : s.end_ts - s.start_ts < 2 ^ 63) :
    (∀ t1 t2 v1 v2, t1 ≤ t2 → vested_amount s t1 = some v1 →
      vested_amount s t2 = some v2 → v1 ≤ v2) ∧
    (∀ t v, vested_amount s t = some v → v ≤ s.total_amount) := by
  constructor
  · intro t1 t2 v1 v2 h12 hv1 hv2
    by_cases g1 : t2 < s.cliff_ts
    · rw [vested_before_cliff s t2 g1] at hv2
      rw [vested_before_cliff s t1 (by omega)] at hv1
      cases hv1
      cases hv2
      exact le_refl 0
    by_cases g2 : t2 ≤ s.start_ts
    · rw [vested_before_start s t2 g1 g2] at hv2
      cases hv2
      by_cases f1 : t1 < s.cliff_ts
      · rw [vested_before_cliff s t1 f1] at hv1
        cases hv1
        exact le_refl 0
      · rw [vested_before_start s t1 f1 (by omega)] at hv1
        cases hv1
        exact le_refl 0
    by_cases g3 : s.end_ts ≤ t2
    · rw [vested_after_end s t2 g1 g2 g3] at hv2
      cases hv2
      exact (vested_bounds s t1 v1 h0 hd hv1).2
    · obtain ⟨hq2, hnn2, _⟩ := vested_middle_some s t2 v2 h0 hd g1
        (not_le.mp g2) (not_le.mp g3) hv2
      by_cases f1 : t1 < s.cliff_ts
      · rw [vested_before_cliff s t1 f1] at hv1
        cases hv1
        exact hnn2
      by_cases f2 : t1 ≤ s.start_ts
      · rw [vested_before_start s t1 f1 f2] at hv1
        cases hv1
        exact hnn2
      by_cases f3 : s.end_ts ≤ t1
      · omega
      · obtain ⟨hq1, _, _⟩ := vested_middle_some s t1 v1 h0 hd f1
          (not_le.mp f2) (not_le.mp f3) hv1
        rw [hq1, hq2]
        have hdpos : (0 : Int) < ((s.end_ts - s.start_ts : Nat) : Int) := by
          have : s.start_ts < s.end_ts := lt_trans (not_le.mp f2) (not_le.mp f3)
          exact_mod_cast Nat.sub_pos_of_lt this
        apply Int.ediv_le_ediv hdpos
        apply mul_le_mul_of_nonneg_left _ h0
        exact_mod_cast Nat.sub_le_sub_right h12 s.start_ts
  · intro t v hv
    exact (vested_bounds s t v h0 hd hv).2

/-- The spec's cliff-retroactivity example stream: `cliff = 50`, `start = 0`,
`end = 100`, `rate = 10`, `total = 1000`. -/
def cliffStream : Stream :=
  { employer := 0, worker := 1, token := 0, rate := 10, cliff_ts := 50,
    start_ts := 0, end_ts := 100, total_amount := 1000, withdrawn_amount := 0,
    last_withdrawal_ts := 0, status := .Active, created_at := 0, closed_at := 0 }

/-- Witness for C8 at the spec's cliff example: the vesting values 0 at
`t = 30` and 600 at `t = 60` are ordered, and 600 respects the cap. -/
theorem c8_witness :
    ((0 : Int) ≤ 600) ∧ ((600 : Int) ≤ cliffStream.total_amount) :=
  ⟨(c8_vesting_monotone_capped cliffStream (by decide) (by decide)).1 30 60 0 600
      (by decide) (by decide) (by decide),
   (c8_vesting_monotone_capped cliffStream (by decide) (by decide)).2 60 600
      (by decide)⟩

/-- Interior evaluation of `vested_amount` under the well-formedness bounds:
no checked operation traps and the value is the quotient. -/
theorem vested_middle_eval (s : Stream) (t : Nat)
    (h0 : 0 ≤ s.total_amount) (hd : s.end_ts - s.start_ts < 2 ^ 63)
    (h1 : ¬ t < s.cliff_ts) (h2 : s.start_ts < t) (h3 : t < s.end_ts)
    (hcap : s.total_amount * ((s.end_ts - s.start_ts : Nat) : Int) ≤ I128_MAX) :
    vested_amount s t = some (s.total_amount * ((t - s.start_ts : Nat) : Int)
      / ((s.end_ts - s.start_ts : Nat) : Int)) := by
  rw [vested_middle s t hd h1 h2 h3]
  have hele : ((t - s.start_ts : Nat) : Int)
      ≤ ((s.end_ts - s.start_ts : Nat) : Int) := by
    exact_mod_cast Nat.sub_le_sub_right h3.le s.start_ts
  have hanneg : 0 ≤ s.total_amount * ((t - s.start_ts : Nat) : Int) :=
    mul_nonneg h0 (by positivity)
  have hub : s.total_amount * ((t - s.start_ts : Nat) : Int) ≤ I128_MAX :=
    le_trans (mul_le_mul_of_nonneg_left hele h0) hcap
  have hmin0 : I128_MIN ≤ (0 : Int) := by norm_num [I128_MIN]
  have hmul : checkedMul s.total_amount ((t - s.start_ts : Nat) : Int)
      = some (s.total_amount * ((t - s.start_ts : Nat) : Int)) := by
    unfold checkedMul
    exact i128check_of_bounds (by omega) hub
  simp only [hmul]
  have hdpos : (0 : Int) < ((s.end_ts - s.start_ts : Nat) : Int) := by
    exact_mod_cast Nat.sub_pos_of_lt (lt_trans h2 h3)
  unfold checkedDiv
  rw [if_neg (by omega), Int.tdiv_eq_ediv hanneg hdpos.le]
  have hqnn : 0 ≤ s.total_amount * ((t - s.start_ts : Nat) : Int)
      / ((s.end_ts - s.start_ts : Nat) : Int) := Int.ediv_nonneg hanneg hdpos.le
  have hqub := Int.ediv_le_self ((s.end_ts - s.start_ts : Nat) : Int) hanneg
  exact i128check_of_bounds (by omega) (le_trans hqub hub)

/-- The vesting formula exactly as the specification words it: piecewise,
with floor division of the wide product. Stated from the spec (not from the
code) for comparison against the code's `vested_amount`. -/
def vestedSpec (s : Stream) (t : Nat) : Int :=
  if t < s.cliff_ts then 0
  else if t ≤ s.start_ts then 0
  else if s.end_ts ≤ t then s.total_amount
  else Int.fdiv (s.total_amount * ((t : Int) - (s.start_ts : Int)))
    ((s.end_ts : Int) - (s.start_ts : Int))

/-- C6: under the creation-established bounds (`total_amount ≥ 0`,
`duration < 2 ^ 63` and `total_amount × duration` within `i128`, so that the
wide multiply and the casts do not trap), the code's `vested_amount` equals
the spec's piecewise floor-division formula `vestedSpec` in every branch:
0 before the cliff, 0 at or before the start, `total_amount` from the end
onwards, and `⌊total × (t − start) / (end − start)⌋` in between — in
particular accrual is retroactive to `start_ts` once `t` crosses the cliff
(see `c6_witness` for the spec's cliff = 50 example). -/
theorem c6_vested_matches_spec (s : Stream) (t : Nat)
    (h0 : 0 ≤ s.total_amount)
    (hd : s.end_ts - s.start_ts < 2 ^ 63)
    (hcap : s.total_amount * ((s.end_ts - s.start_ts : Nat) : Int) ≤ I128_MAX) :
    vested_amount s t = some (vestedSpec s t) := by
  unfold vestedSpec
  by_cases h1 : t < s.cliff_ts
  · rw [if_pos h1]
    exact vested_before_cliff s t h1
  rw [if_neg h1]
  by_cases h2 : t ≤ s.start_ts
  · rw [if_pos h2]
    exact vested_before_start s t h1 h2
  rw [if_neg h2]
  by_cases h3 : s.end_ts ≤ t
  · rw [if_pos h3]
    exact vested_after_end s t h1 h2 h3
  rw [if_neg h3]
  have h2' := not_le.mp h2
  have h3' := not_le.mp h3
  rw [vested_middle_eval s t h0 hd h1 h2' h3' hcap]
  have hc1 : ((t - s.start_ts : Nat) : Int) = (t : Int) - (s.start_ts : Int) :=
    Nat.cast_sub h2'.le
  have hc2 : ((s.end_ts - s.start_ts : Nat) : Int)
      = (s.end_ts : Int) - (s.start_ts : Int) :=
    Nat.cast_sub (lt_trans h2' h3').le
  have hanneg : 0 ≤ s.total_amount * ((t - s.start_ts : Nat) : Int) :=
    mul_nonneg h0 (by positivity)
  have hdpos : (0 : Int) < ((s.end_ts - s.start_ts : Nat) : Int) := by
    exact_mod_cast Nat.sub_pos_of_lt (lt_trans h2' h3')
  rw [← hc1, ← hc2, Int.fdiv_eq_tdiv hanneg hdpos.le,
    Int.tdiv_eq_ediv hanneg hdpos.le]

/-- Witness for C6 at the spec's cliff-retroactivity scenario
(`cliff = 50`, `start = 0`, `end = 100`, `rate = 10`, total 1000):
vested is 0 at `t = 30` and 600 at `t = 60`, retroactive from the start. -/
theorem c6_witness :
    vested_amount cliffStream 30 = some 0 ∧
    vested_amount cliffStream 60 = some 600 := by
  constructor
  · exact (c6_vested_matches_spec cliffStream 30 (by decide) (by decide)
      (by decide)).trans (by decide)
  · exact (c6_vested_matches_spec cliffStream 60 (by decide) (by decide)
      (by decide)).trans (by decide)

/-- A stream canceled mid-vesting: linear over `[0, 100]` with total 1000,
withdrawn 500, canceled at `closed_at = 50`. -/
def canceledStream : Stream :=
  { employer := 0, worker := 1, token := 0, rate := 10, cliff_ts := 0,
    start_ts := 0, end_ts := 100, total_amount := 1000,
    withdrawn_amount := 500, last_withdrawal_ts := 50, status := .Canceled,
    created_at := 0, closed_at := 50 }

/-- C7 (counterexample to the claim as stated): the accrual function applied
to a Canceled stream at `at_time = 80` yields 800 — not
`vested(stream, min(at_time, closed_at)) = vested(stream, 50) = 500`.
`vested_amount` never reads `status` or `closed_at`, so a closed stream's
accrued value is not frozen at closure time. -/
theorem c7_counterexample :
    isClosed canceledStream = true ∧
    vested_amount canceledStream 80 = some 800 ∧
    vested_amount canceledStream (min 80 canceledStream.closed_at) = some 500 ∧
    some (800 : Int) ≠ some (500 : Int) :=
  ⟨rfl, by decide, by decide, by decide⟩

/-- C7 (amended): the code's accrual function ignores closure entirely —
`vested_amount` of a stream with any `status` / `closed_at` equals
`vested_amount` of the same stream record with the original fields, so a
closed stream's nominal accrual keeps growing past `closed_at`. What the
code does guarantee instead is that closure freezes *payouts*: `withdraw`
on a Canceled or Completed stream fails with the stream-closed trap (and
pays nothing), rather than paying post-closure accrual. -/
theorem c7_closed_stream_accrual :
    (∀ (s : Stream) (st : StreamStatus) (c : Nat) (t : Nat),
      vested_amount { s with status := st, closed_at := c } t
        = vested_amount s t) ∧
    (∀ (sys : SysState) (stream_id : Nat) (w : Address) (now : Nat)
      (s : Stream), sys.paused = false → sys.streams stream_id = some s →
      s.worker = w → isClosed s = true →
      withdraw sys stream_id w now = .error .streamClosed) := by
  constructor
  · intro s st c t
    rfl
  · intro sys stream_id w now s hp hs hw hc
    unfold withdraw
    rw [hp]
    simp only [Bool.false_eq_true, if_false, hs]
    rw [if_neg (not_not_intro hw), if_pos hc]

/-- `canceledStream` stored as stream 1 in an otherwise quiet system. -/
def canceledSys : SysState :=
  { vault := VaultState.init,
    streams := Function.update (fun _ => none) 1 (some canceledStream),
    employerIx := Function.update (fun _ => []) 0 [1],
    workerIx := Function.update (fun _ => []) 1 [1],
    nextId := 2, retention := 2592000, paused := false }

/-- Witness for C7's amended statement: withdrawing from the canceled stream
(at a time past `closed_at`, where nominal accrual has kept growing) fails
with the stream-closed trap. -/
theorem c7_witness :
    withdraw canceledSys 1 1 80 = .error .streamClosed :=
  c7_closed_stream_accrual.2 canceledSys 1 1 80 canceledStream rfl rfl rfl rfl

/-- Per-item handling: a missing stream id yields a failed result with no
mutation. -/
theorem batch_item_missing (m : Nat → Option Stream) (id : Nat)
    (caller : Address) (now : Nat) (h : m id = none) :
    batch_item m id caller now = .ok (m, ⟨id, 0, false⟩) := by
  unfold batch_item
  simp only [h]

/-- Per-item handling: a stream whose payee is not the caller yields a
failed result with no mutation. -/
theorem batch_item_foreign (m : Nat → Option Stream) (id : Nat)
    (caller : Address) (now : Nat) (s : Stream) (h : m id = some s)
    (hw : s.worker ≠ caller) :
    batch_item m id caller now = .ok (m, ⟨id, 0, false⟩) := by
  unfold batch_item
  simp only [h]
  rw [if_pos hw]

/-- Per-item handling: a closed stream yields a failed result with no
mutation (whether or not the caller owns it). -/
theorem batch_item_closed (m : Nat → Option Stream) (id : Nat)
    (caller : Address) (now : Nat) (s : Stream) (h : m id = some s)
    (hc : isClosed s = true) :
    batch_item m id caller now = .ok (m, ⟨id, 0, false⟩) := by
  by_cases hw : s.worker ≠ caller
  · exact batch_item_foreign m id caller now s h hw
  · unfold batch_item
    simp only [h]
    rw [if_neg hw, if_pos hc]

/-- Per-item handling: an owned active stream with nothing newly vested is a
successful no-op. -/
theorem batch_item_zero (m : Nat → Option Stream) (id : Nat)
    (caller : Address) (now : Nat) (s : Stream) (v : Int) (h : m id = some s)
    (hw : s.worker = caller) (hc : isClosed s = false)
    (hv : vested_amount s now = some v)
    (hz : (checkedSub v s.withdrawn_amount).getD 0 ≤ 0) :
    batch_item m id caller now = .ok (m, ⟨id, 0, true⟩) := by
  unfold batch_item
  simp only [h, hv]
  rw [if_neg (not_not_intro hw), if_neg (by simp [hc]), if_pos hz]

/-- Per-item handling: an arithmetic trap in the accrual computation aborts
the whole batch (modelling the `expect` in `vested_amount`). -/
theorem batch_item_trap (m : Nat → Option Stream) (id : Nat)
    (caller : Address) (now : Nat) (s : Stream) (h : m id = some s)
    (hw : s.worker = caller) (hc : isClosed s = false)
    (hv : vested_amount s now = none) :
    batch_item m id caller now = .error .amountOverflow := by
  unfold batch_item
  simp only [h, hv]
  rw [if_neg (not_not_intro hw), if_neg (by simp [hc])]

/-- Per-item handling: the positive-available mutation, written out. -/
theorem batch_item_positive (m : Nat → Option Stream) (id : Nat)
    (caller : Address) (now : Nat) (s : Stream) (v wd : Int)
    (h : m id = some s) (hw : s.worker = caller) (hc : isClosed s = false)
    (hv : vested_amount s now = some v)
    (hz : ¬ (checkedSub v s.withdrawn_amount).getD 0 ≤ 0)
    (ha : checkedAdd s.withdrawn_amount ((checkedSub v s.withdrawn_amount).getD 0)
      = some wd) :
    batch_item m id caller now =
      .ok (Function.update m id (some (if s.total_amount ≤ wd
          then { s with withdrawn_amount := wd, last_withdrawal_ts := now,
                        status := .Completed, closed_at := now }
          else { s with withdrawn_amount := wd, last_withdrawal_ts := now })),
        ⟨id, (checkedSub v s.withdrawn_amount).getD 0, true⟩) := by
  unfold batch_item
  simp only [h, hv, ha]
  rw [if_neg (not_not_intro hw), if_neg (by simp [hc]), if_neg hz]

/-- Per-item handling: an overflow of the withdrawn-amount addition aborts
the whole batch. -/
theorem batch_item_positive_trap (m : Nat → Option Stream) (id : Nat)
    (caller : Address) (now : Nat) (s : Stream) (v : Int)
    (h : m id = some s) (hw : s.worker = caller) (hc : isClosed s = false)
    (hv : vested_amount s now = some v)
    (hz : ¬ (checkedSub v s.withdrawn_amount).getD 0 ≤ 0)
    (ha : checkedAdd s.withdrawn_amount ((checkedSub v s.withdrawn_amount).getD 0)
      = none) :
    batch_item m id caller now = .error .amountOverflow := by
  unfold batch_item
  simp only [h, hv, ha]
  rw [if_neg (not_not_intro hw), if_neg (by simp [hc]), if_neg hz]

/-- `withdraw` evaluation: missing stream. -/
theorem withdraw_missing (sys : SysState) (id : Nat) (caller : Address)
    (now : Nat) (hp : sys.paused = false) (hs : sys.streams id = none) :
    withdraw sys id caller now = .error .streamNotFound := by
  unfold withdraw
  rw [hp]
  simp only [Bool.false_eq_true, if_false, hs]

/-- `withdraw` evaluation: caller is not the payee. -/
theorem withdraw_foreign (sys : SysState) (id : Nat) (caller : Address)
    (now : Nat) (s : Stream) (hp : sys.paused = false)
    (hs : sys.streams id = some s) (hw : s.worker ≠ caller) :
    withdraw sys id caller now = .error .notWorker := by
  unfold withdraw
  rw [hp]
  simp only [Bool.false_eq_true, if_false, hs]
  rw [if_pos hw]

/-- `withdraw` evaluation: closed stream. -/
theorem withdraw_closed_eval (sys : SysState) (id : Nat) (caller : Address)
    (now : Nat) (s : Stream) (hp : sys.paused = false)
    (hs : sys.streams id = some s) (hw : s.worker = caller)
    (hc : isClosed s = true) :
    withdraw sys id caller now = .error .streamClosed := by
  unfold withdraw
  rw [hp]
  simp only [Bool.false_eq_true, if_false, hs]
  rw [if_neg (not_not_intro hw), if_pos hc]

/-- `withdraw` evaluation: accrual arithmetic trap. -/
theorem withdraw_trap (sys : SysState) (id : Nat) (caller : Address)
    (now : Nat) (s : Stream) (hp : sys.paused = false)
    (hs : sys.streams id = some s) (hw : s.worker = caller)
    (hc : isClosed s = false) (hv : vested_amount s now = none) :
    withdraw sys id caller now = .error .amountOverflow := by
  unfold withdraw
  rw [hp]
  simp only [Bool.false_eq_true, if_false, hs, hv]
  rw [if_neg (not_not_intro hw), if_neg (by simp [hc])]

/-- `withdraw` evaluation: nothing newly vested is a successful no-op. -/
theorem withdraw_zero (sys : SysState) (id : Nat) (caller : Address)
    (now : Nat) (s : Stream) (v : Int) (hp : sys.paused = false)
    (hs : sys.streams id = some s) (hw : s.worker = caller)
    (hc : isClosed s = false) (hv : vested_amount s now = some v)
    (hz : (checkedSub v s.withdrawn_amount).getD 0 ≤ 0) :
    withdraw sys id caller now = .ok (sys, 0) := by
  unfold withdraw
  rw [hp]
  simp only [Bool.false_eq_true, if_false, hs, hv]
  rw [if_neg (not_not_intro hw), if_neg (by simp [hc]), if_pos hz]

/-- `withdraw` evaluation: the positive-available mutation, written out. -/
theorem withdraw_positive (sys : SysState) (id : Nat) (caller : Address)
    (now : Nat) (s : Stream) (v wd : Int) (hp : sys.paused = false)
    (hs : sys.streams id = some s) (hw : s.worker = caller)
    (hc : isClosed s = false) (hv : vested_amount s now = some v)
    (hz : ¬ (checkedSub v s.withdrawn_amount).getD 0 ≤ 0)
    (ha : checkedAdd s.withdrawn_amount ((checkedSub v s.withdrawn_amount).getD 0)
      = some wd) :
    withdraw sys id caller now =
      .ok ({ sys with streams := (Function.update sys.streams id
          (some (if s.total_amount ≤ wd
            then { s with withdrawn_amount := wd, last_withdrawal_ts := now,
                          status := .Completed, closed_at := now }
            else { s with withdrawn_amount := wd, last_withdrawal_ts := now }))) },
        (checkedSub v s.withdrawn_amount).getD 0) := by
  unfold withdraw
  rw [hp]
  simp only [Bool.false_eq_true, if_false, hs, hv, ha]
  rw [if_neg (not_not_intro hw), if_neg (by simp [hc]), if_neg hz]

/-- `withdraw` evaluation: overflow of the withdrawn-amount addition. -/
theorem withdraw_positive_trap (sys : SysState) (id : Nat) (caller : Address)
    (now : Nat) (s : Stream) (v : Int) (hp : sys.paused = false)
    (hs : sys.streams id = some s) (hw : s.worker = caller)
    (hc : isClosed s = false) (hv : vested_amount s now = some v)
    (hz : ¬ (checkedSub v s.withdrawn_amount).getD 0 ≤ 0)
    (ha : checkedAdd s.withdrawn_amount ((checkedSub v s.withdrawn_amount).getD 0)
      = none) :
    withdraw sys id caller now = .error .amountOverflow := by
  unfold withdraw
  rw [hp]
  simp only [Bool.false_eq_true, if_false, hs, hv, ha]
  rw [if_neg (not_not_intro hw), if_neg (by simp [hc]), if_neg hz]

/-- Per-item handling agrees with the standalone `withdraw` on owned active
streams: every successful withdrawal outcome (including the zero no-op) maps
to a successful per-item outcome with the identical stream store, and an
arithmetic trap aborts both. -/
theorem batch_item_like_withdraw (sys : SysState) (id : Nat)
    (caller : Address) (now : Nat) (hp : sys.paused = false) :
    (∀ sys' amt, withdraw sys id caller now = .ok (sys', amt) →
      batch_item sys.streams id caller now
        = .ok (sys'.streams, ⟨id, amt, true⟩)) ∧
    (withdraw sys id caller now = .error .amountOverflow →
      batch_item sys.streams id caller now = .error .amountOverflow) := by
  rcases hE : sys.streams id with _ | stream
  · rw [withdraw_missing sys id caller now hp hE]
    constructor
    · intro sys' amt h
      simp at h
    · intro h
      simp at h
  · by_cases hw : stream.worker = caller
    · by_cases hc : isClosed stream
      · rw [withdraw_closed_eval sys id caller now stream hp hE hw hc]
        constructor
        · intro sys' amt h
          simp at h
        · intro h
          simp at h
      · rcases hv : vested_amount stream now with _ | v
        · rw [withdraw_trap sys id caller now stream hp hE hw
            (by simpa using hc) hv]
          constructor
          · intro sys' amt h
            simp at h
          · intro h
            exact batch_item_trap sys.streams id caller now stream hE hw
              (by simpa using hc) hv
        · by_cases hz : (checkedSub v stream.withdrawn_amount).getD 0 ≤ 0
          · rw [withdraw_zero sys id caller now stream v hp hE hw
              (by simpa using hc) hv hz]
            constructor
            · intro sys' amt h
              simp only [Except.ok.injEq, Prod.mk.injEq] at h
              obtain ⟨h1, h2⟩ := h
              subst h1
              subst h2
              exact batch_item_zero sys.streams id caller now stream v hE hw
                (by simpa using hc) hv hz
            · intro h
              simp at h
          · rcases ha : checkedAdd stream.withdrawn_amount
                ((checkedSub v stream.withdrawn_amount).getD 0) with _ | wd
            · rw [withdraw_positive_trap sys id caller now stream v hp hE hw
                (by simpa using hc) hv hz ha]
              constructor
              · intro sys' amt h
                simp at h
              · intro h
                exact batch_item_positive_trap sys.streams id caller now
                  stream v hE hw (by simpa using hc) hv hz ha
            · rw [withdraw_positive sys id caller now stream v wd hp hE hw
                (by simpa using hc) hv hz ha]
              constructor
              · intro sys' amt h
                simp only [Except.ok.injEq, Prod.mk.injEq] at h
                obtain ⟨h1, h2⟩ := h
                subst h2
                rw [← h1]
                exact batch_item_positive sys.streams id caller now stream
                  v wd hE hw (by simpa using hc) hv hz ha
              · intro h
                simp at h
    · rw [withdraw_foreign sys id caller now stream hp hE hw]
      constructor
      · intro sys' amt h
        simp at h
      · intro h
        simp at h

/-- The batch loop produces exactly one result per requested id, in order. -/
theorem batch_go_length (ids : List Nat) :
    ∀ (m : Nat → Option Stream) (caller : Address) (now : Nat)
      (m' : Nat → Option Stream) (rs : List WithdrawResult),
      batch_go m ids caller now = .ok (m', rs) → rs.length = ids.length := by
  induction ids with
  | nil =>
    intro m caller now m' rs h
    unfold batch_go at h
    simp only [Except.ok.injEq, Prod.mk.injEq] at h
    rw [← h.2]
    rfl
  | cons id rest ih =>
    intro m caller now m' rs h
    unfold batch_go at h
    rcases hbi : batch_item m id caller now with e | ⟨m1, r⟩
    · rw [hbi] at h
      simp at h
    · simp only [hbi] at h
      rcases hgo : batch_go m1 rest caller now with e | ⟨m2, rs2⟩
      · rw [hgo] at h
        simp at h
      · simp only [hgo, Except.ok.injEq, Prod.mk.injEq] at h
        rw [← h.2]
        simp only [List.length_cons]
        rw [ih m1 caller now m2 rs2 hgo]

/-- C9: `batch_withdraw` = the pause gate plus an independent per-item fold
of `batch_item`, and `batch_item` has exactly the claimed per-item behavior:
a missing id, a foreign payee, or a closed stream yields
`success = false, amount = 0` with the store unchanged (never aborting the
batch); an owned active stream with nothing available yields
`success = true, amount = 0` with the store unchanged; and an owned active
stream is otherwise processed exactly as the standalone `withdraw` would
process it (same resulting stream store, same amount, and the same
arithmetic-trap aborts); every produced result list has one entry per id. -/
theorem c9_batch_withdraw_cases :
    (∀ (m : Nat → Option Stream) (id : Nat) (caller : Address) (now : Nat),
      m id = none → batch_item m id caller now = .ok (m, ⟨id, 0, false⟩)) ∧
    (∀ (m : Nat → Option Stream) (id : Nat) (caller : Address) (now : Nat)
      (s : Stream), m id = some s → s.worker ≠ caller →
      batch_item m id caller now = .ok (m, ⟨id, 0, false⟩)) ∧
    (∀ (m : Nat → Option Stream) (id : Nat) (caller : Address) (now : Nat)
      (s : Stream), m id = some s → isClosed s = true →
      batch_item m id caller now = .ok (m, ⟨id, 0, false⟩)) ∧
    (∀ (m : Nat → Option Stream) (id : Nat) (caller : Address) (now : Nat)
      (s : Stream) (v : Int), m id = some s → s.worker = caller →
      isClosed s = false → vested_amount s now = some v →
      (checkedSub v s.withdrawn_amount).getD 0 ≤ 0 →
      batch_item m id caller now = .ok (m, ⟨id, 0, true⟩)) ∧
    (∀ (sys : SysState) (id : Nat) (caller : Address) (now : Nat),
      sys.paused = false →
      (∀ sys' amt, withdraw sys id caller now = .ok (sys', amt) →
        batch_item sys.streams id caller now
          = .ok (sys'.streams, ⟨id, amt, true⟩)) ∧
      (withdraw sys id caller now = .error .amountOverflow →
        batch_item sys.streams id caller now = .error .amountOverflow)) ∧
    (∀ (ids : List Nat) (m : Nat → Option Stream) (caller : Address)
      (now : Nat) (m' : Nat → Option Stream) (rs : List WithdrawResult),
      batch_go m ids caller now = .ok (m', rs) → rs.length = ids.length) ∧
    (∀ (sys : SysState) (ids : List Nat) (caller : Address) (now : Nat),
      sys.paused = false →
      batch_withdraw sys ids caller now =
        match batch_go sys.streams ids caller now with
        | .error e => .error e
        | .ok (m', rs) => .ok ({ sys with streams := m' }, rs)) := by
  refine ⟨batch_item_missing, batch_item_foreign, batch_item_closed,
    batch_item_zero, batch_item_like_withdraw, ?_, ?_⟩
  · intro ids m caller now m' rs h
    exact batch_go_length ids m caller now m' rs h
  · intro sys ids caller now hp
    unfold batch_withdraw
    rw [hp]
    simp

/-- Witness for C9 at the spec's mixed-ownership scenario: caller 1 does not
own `canceledStream`-style stream 2 below (payee 2), so the per-item outcome
is `success = false, amount = 0` with the store untouched. -/
theorem c9_witness :
    batch_item
      (Function.update (fun _ => none) 2
        (some { liveStream with worker := 2 })) 2 1 5
      = .ok (Function.update (fun _ => none) 2
        (some { liveStream with worker := 2 }), ⟨2, 0, false⟩) :=
  c9_batch_withdraw_cases.2.1
    (Function.update (fun _ => none) 2 (some { liveStream with worker := 2 }))
    2 1 5 { liveStream with worker := 2 } rfl (by decide)

/-- C10 (amended): `cleanup_stream` fails explicitly — never a silent no-op —
with stream-not-found on a missing id, with the not-closed error on an open
stream, and with the retention trap while
`now < closed_at.saturating_add(retention)` (the deadline saturates at the
maximum 64-bit timestamp, the one amendment over the claim's plain
`closed_at + retention_period`); each failure is an `.error`, so no state
changes. Once the saturated deadline has passed on a closed stream, cleanup
succeeds: the record is deleted (`get_stream` yields `none`) and the id is
removed from both the payer and the payee index; the vault is untouched. -/
theorem c10_cleanup_cases (sys : SysState) (stream_id : Nat) (now : Nat) :
    (sys.streams stream_id = none →
      cleanup_stream sys stream_id now = .error .streamNotFound) ∧
    (∀ s, sys.streams stream_id = some s → isClosed s = false →
      cleanup_stream sys stream_id now = .error .streamNotClosed) ∧
    (∀ s, sys.streams stream_id = some s → isClosed s = true →
      now < satAdd64 s.closed_at sys.retention →
      cleanup_stream sys stream_id now = .error .retentionNotMet) ∧
    (∀ s, sys.streams stream_id = some s → isClosed s = true →
      satAdd64 s.closed_at sys.retention ≤ now →
      ∃ sys', cleanup_stream sys stream_id now = .ok sys' ∧
        get_stream sys' stream_id = none ∧
        stream_id ∉ sys'.employerIx s.employer ∧
        stream_id ∉ sys'.workerIx s.worker ∧
        sys'.vault = sys.vault) := by
  refine ⟨?_, ?_, ?_, ?_⟩
  · intro hs
    unfold cleanup_stream
    simp only [hs]
  · intro s hs hc
    unfold cleanup_stream
    simp only [hs]
    rw [if_pos (by simp [hc])]
  · intro s hs hc hr
    unfold cleanup_stream
    simp only [hs]
    rw [if_neg (by simp [hc]), if_pos hr]
  · intro s hs hc hr
    refine ⟨{ sys with
        streams := Function.update sys.streams stream_id none,
        employerIx := remove_from_index sys.employerIx s.employer stream_id,
        workerIx := remove_from_index sys.workerIx s.worker stream_id },
      ?_, ?_, ?_, ?_, rfl⟩
    · unfold cleanup_stream
      simp only [hs]
      rw [if_neg (by simp [hc]), if_neg (not_lt.mpr hr)]
    · unfold get_stream
      simp [Function.update]
    · simp [remove_from_index, Function.update, List.mem_filter]
    · simp [remove_from_index, Function.update, List.mem_filter]

/-- A system holding one stream (id 1) canceled at `closed_at = 10`, with
the retention setting `2 ^ 64 − 5`, so that the code's saturating deadline
is the maximum `u64` timestamp while the mathematical deadline
`closed_at + retention` exceeds it. -/
def staleSys : SysState :=
  { vault := VaultState.init,
    streams := Function.update (fun _ => none) 1
      (some { canceledStream with closed_at := 10 }),
    employerIx := Function.update (fun _ => []) 0 [1],
    workerIx := Function.update (fun _ => []) 1 [1],
    nextId := 2, retention := 2 ^ 64 - 5, paused := false }

/-- C10 (counterexample to the claim as stated): at `now = 2 ^ 64 − 1`
(the largest `u64` timestamp) we still have
`now < closed_at + retention_period = 10 + (2 ^ 64 − 5)`, so the claim says
cleanup must fail — but the code compares against
`closed_at.saturating_add(retention)`, which saturates to `2 ^ 64 − 1`, and
the cleanup succeeds. -/
theorem c10_counterexample :
    U64_MAX < 10 + staleSys.retention ∧
    ∃ sys', cleanup_stream staleSys 1 U64_MAX = .ok sys' :=
  ⟨by decide, _, rfl⟩

/-- The spec's retention scenario: stream 1 canceled at `t = 10`,
retention 100 seconds. -/
def retSys : SysState :=
  { vault := VaultState.init,
    streams := Function.update (fun _ => none) 1
      (some { canceledStream with closed_at := 10 }),
    employerIx := Function.update (fun _ => []) 0 [1],
    workerIx := Function.update (fun _ => []) 1 [1],
    nextId := 2, retention := 100, paused := false }

/-- Witness for C10 at the spec's scenario (retention 100, canceled at 10):
cleanup at `t = 50` fails with the retention trap, and cleanup at `t = 110`
succeeds, deleting the record and clearing both indexes. -/
theorem c10_witness :
    cleanup_stream retSys 1 50 = .error .retentionNotMet ∧
    ∃ sys', cleanup_stream retSys 1 110 = .ok sys' ∧
      get_stream sys' 1 = none ∧
      (1 : Nat) ∉ sys'.employerIx ({ canceledStream with closed_at := 10 } : Stream).employer ∧
      (1 : Nat) ∉ sys'.workerIx ({ canceledStream with closed_at := 10 } : Stream).worker ∧
      sys'.vault = retSys.vault :=
  ⟨(c10_cleanup_cases retSys 1 50).2.2.1 _ rfl rfl (by decide),
   (c10_cleanup_cases retSys 1 110).2.2.2 _ rfl rfl (by decide)⟩

end Quipay
